import Mathlib

/-!
Shallow embedding of the Helix Lua plugin runtime (crate `helix-plugin`):
the event registry, command registry, UI-callback bridge, the dynamically
scoped editor-context binding, plugin loading and manager orchestration.

Machine integers: the UI-callback counter is a Rust `AtomicU64` whose
`fetch_add(1)` wraps on overflow; it is modelled as a `Nat` reduced modulo
`2 ^ 64`.  Opaque interpreter handles (`mlua::RegistryKey`) are modelled as
abstract numeric codes that the engine stores and replays without
inspecting.  Script execution, callback retrieval and callback invocation
are oracles (function parameters), since the interpreter itself is outside
the specified core.
-/

namespace HelixPlugin

/-- Opaque handle to a Lua function kept in the interpreter registry
(`mlua::RegistryKey`).  Stored and replayed, never inspected. -/
abbrev RegistryKey := Nat

/-- `src/types.rs`: the closed enumeration of subscribable events. -/
inductive EventType where
  | OnInit
  | OnReady
  | OnBufferOpen
  | OnBufferPreSave
  | OnBufferPostSave
  | OnBufferClose
  | OnBufferChanged
  | OnModeChange
  | OnKeyPress
  | OnLspAttach
  | OnLspDiagnostic
  | OnLspInitialized
  | OnSelectionChange
  | OnViewChange
deriving DecidableEq

/-- `EventType::as_str` from `src/types.rs`. -/
def EventType.as_str : EventType → String
  | .OnInit => "init"
  | .OnReady => "ready"
  | .OnBufferOpen => "buffer_open"
  | .OnBufferPreSave => "buffer_pre_save"
  | .OnBufferPostSave => "buffer_post_save"
  | .OnBufferClose => "buffer_close"
  | .OnBufferChanged => "buffer_changed"
  | .OnModeChange => "mode_change"
  | .OnKeyPress => "key_press"
  | .OnLspAttach => "lsp_attach"
  | .OnLspDiagnostic => "lsp_diagnostic"
  | .OnLspInitialized => "lsp_initialized"
  | .OnSelectionChange => "selection_change"
  | .OnViewChange => "view_change"

/-- The recognized-name table of `impl FromStr for EventType`
(`src/types.rs`), one pair per match arm, in source order. -/
def eventNames : List (String × EventType) :=
  [("init", .OnInit),
   ("ready", .OnReady),
   ("buffer_open", .OnBufferOpen),
   ("buffer_pre_save", .OnBufferPreSave),
   ("buffer_post_save", .OnBufferPostSave),
   ("buffer_close", .OnBufferClose),
   ("buffer_changed", .OnBufferChanged),
   ("mode_change", .OnModeChange),
   ("key_press", .OnKeyPress),
   ("lsp_attach", .OnLspAttach),
   ("lsp_diagnostic", .OnLspDiagnostic),
   ("lsp_initialized", .OnLspInitialized),
   ("selection_change", .OnSelectionChange),
   ("view_change", .OnViewChange)]

/-- `impl FromStr for EventType` from `src/types.rs`: the first matching
arm wins; the `Err(())` arm is modelled as `none`. -/
def EventType.from_str (s : String) : Option EventType :=
  (eventNames.find? (fun e => decide (e.1 = s))).map (fun e => e.2)

/-- `PluginError` from `src/error.rs`.  Wrapped foreign errors
(`mlua::Error`, `std::io::Error`) carry their rendered message. -/
inductive PluginError where
  | InitializationFailed (msg : String)
  | LuaError (msg : String)
  | PluginNotFound (msg : String)
  | PluginAlreadyLoaded (msg : String)
  | EventHandlerError (plugin : String) (error : String)
  | CommandExecutionFailed (msg : String)
  | InvalidPluginStructure (msg : String)
  | IoError (msg : String)
  | ConfigError (msg : String)
  | ApiAccessError (msg : String)
deriving DecidableEq

/-- `PluginMetadata` from `src/types.rs`. -/
structure PluginMetadata where
  name : String
  version : String
  description : Option String
  author : Option String
  entry : Option String
deriving DecidableEq

/-- `Plugin` from `src/types.rs`; `PathBuf` modelled as a string. -/
structure Plugin where
  metadata : PluginMetadata
  path : String
  enabled : Bool
deriving DecidableEq

/-- `CommandMetadata` from `src/types.rs`. -/
structure CommandMetadata where
  name : String
  doc : String
  args : Option String
deriving DecidableEq

/-- `IndividualPluginConfig` from `src/types.rs`.  The plugin-specific
`config: serde_json::Value` payload plays no role in the modelled control
flow and is omitted. -/
structure IndividualPluginConfig where
  name : String
  enabled : Bool
deriving DecidableEq

/-- `PluginConfig` from `src/types.rs`. -/
structure PluginConfig where
  enabled : Bool
  plugin_dirs : List String
  plugins : List IndividualPluginConfig
deriving DecidableEq

/-- The slice of `helix_view::Editor` touched by the modelled API surface:
the status line set by `Editor::set_status`. -/
structure Editor where
  status : Option String
deriving DecidableEq

/-- `Editor::set_status`. -/
def Editor.set_status (e : Editor) (message : String) : Editor :=
  { e with status := some message }

/-- The message of the `mlua::Error::RuntimeError` raised by
`get_editor_mut` in `src/lua/mod.rs` when no editor context is bound. -/
def noActiveContextMsg : String :=
  "No active editor context. This function can only be called from within a plugin callback."

/-- `get_editor_mut` from `src/lua/mod.rs`: reads the thread-local
`CURRENT_EDITOR` binding (here passed explicitly as `ctx`). -/
def get_editor_mut (ctx : Option Editor) : Except String Editor :=
  match ctx with
  | some e => Except.ok e
  | none => Except.error noActiveContextMsg

/-- `with_editor_context` from `src/lua/mod.rs`.  The thread-local
`CURRENT_EDITOR` cell is threaded explicitly: the incoming value is
overwritten with `some editor`, the body `f` runs against that binding
(and may itself rebind it, e.g. by a nested `with_editor_context`), and on
exit the cell is unconditionally set back to `none` — not restored to the
incoming value. -/
def with_editor_context {α : Type} (editor : Editor)
    (f : Option Editor → α × Option Editor) (_cur : Option Editor) :
    α × Option Editor :=
  ((f (some editor)).1, none)

/-- `helix.ui.notify` from `src/lua/api/ui.rs`: on a missing editor
context the error is swallowed (`if let Ok(editor) = ...`) and the call
returns `Ok(())` having done nothing. -/
def ui_notify (ctx : Option Editor) (message : String) :
    Option Editor × Except String Unit :=
  match get_editor_mut ctx with
  | Except.ok e => (some (e.set_status message), Except.ok ())
  | Except.error _ => (ctx, Except.ok ())

/-- `helix.ui.set_status` from `src/lua/api/ui.rs`: the missing-context
error propagates (`get_editor_mut()?`). -/
def ui_set_status (ctx : Option Editor) (message : String) :
    Option Editor × Except String Unit :=
  match get_editor_mut ctx with
  | Except.ok e => (some (e.set_status message), Except.ok ())
  | Except.error msg => (ctx, Except.error msg)

/-- Association-list lookup modelling `HashMap` access. -/
def lookupAssoc {κ ν : Type} [DecidableEq κ] (m : List (κ × ν)) (key : κ) :
    Option ν :=
  (m.find? (fun e => decide (e.1 = key))).map (fun e => e.2)

/-- Association-list insert modelling `HashMap::insert` (replaces any
binding of the same key). -/
def insertAssoc {κ ν : Type} [DecidableEq κ] (m : List (κ × ν)) (key : κ)
    (v : ν) : List (κ × ν) :=
  (key, v) :: m.filter (fun e => decide (e.1 ≠ key))

/-- Association-list removal modelling `HashMap::remove`. -/
def removeAssoc {κ ν : Type} [DecidableEq κ] (m : List (κ × ν)) (key : κ) :
    List (κ × ν) :=
  m.filter (fun e => decide (e.1 ≠ key))

/-- The `u64` modulus: `AtomicU64::fetch_add` wraps at this bound. -/
def u64Mod : Nat := 2 ^ 64

/-- The mutable state owned by `LuaEngine` (`src/lua/mod.rs`), together
with the interpreter-global `_current_plugin_name` that `load_plugin`
sets and the presence flag for the `UiHandlerWrapper` app-data (the
callback registry and counter app-data are installed unconditionally by
`register_api` and are part of the state proper). -/
structure LuaEngineState where
  event_handlers : List (EventType × List (String × RegistryKey))
  plugins : List (String × Plugin)
  commands : List (String × CommandMetadata × RegistryKey)
  ui_callbacks : List ((String × Nat) × RegistryKey)
  next_ui_callback_id : Nat
  ui_handler_set : Bool
  current_plugin_name : Option String
deriving DecidableEq

/-- Handler list registered for one event type (empty when absent,
matching `handlers.get(&event.event_type)` yielding `None`). -/
def handlersFor (st : LuaEngineState) (t : EventType) :
    List (String × RegistryKey) :=
  (lookupAssoc st.event_handlers t).getD []

/-- A freshly constructed engine (`LuaEngine::new`): empty registries,
UI-callback counter at `1` (`AtomicU64::new(1)`). -/
def engineNew : LuaEngineState :=
  { event_handlers := []
    plugins := []
    commands := []
    ui_callbacks := []
    next_ui_callback_id := 1
    ui_handler_set := false
    current_plugin_name := none }

/-- A fresh engine after `set_ui_handler` and `register_api`. -/
def engineReady : LuaEngineState :=
  { engineNew with ui_handler_set := true }

/-- The `helix.on` closure from `LuaEngine::register_event_api`
(`src/lua/mod.rs`): parse the event name (unknown names are rejected with
a runtime error), attribute the subscription to the interpreter-global
`_current_plugin_name` (defaulting to `"unknown"` when unset), and append
the callback to that event's handler vector. -/
def helix_on (st : LuaEngineState) (event_name : String)
    (callback : RegistryKey) : LuaEngineState × Except String Unit :=
  match EventType.from_str event_name with
  | none => (st, Except.error ("Invalid event type: " ++ event_name))
  | some event_type =>
    let plugin_name := st.current_plugin_name.getD "unknown"
    let hs := handlersFor st event_type
    ({ st with
        event_handlers :=
          insertAssoc st.event_handlers event_type
            (hs ++ [(plugin_name, callback)]) },
     Except.ok ())

/-- `helix.ui.prompt` from `src/lua/api/ui.rs`: with no editor context the
call silently returns `Ok(())`; with the `UiHandlerWrapper` app-data absent
it likewise silently returns; otherwise it draws a fresh id from the shared
counter (`fetch_add(1)`, wrapping at `2 ^ 64`), stores the callback under
`(plugin_name, id)` and hands `(plugin, id)` to the UI handler (returned
here as the middle component). -/
def ui_prompt (ctx : Option Editor) (st : LuaEngineState) (_message : String)
    (_default : Option String) (callback : RegistryKey) :
    LuaEngineState × Option (String × Nat) × Except String Unit :=
  match get_editor_mut ctx with
  | Except.error _ => (st, none, Except.ok ())
  | Except.ok _ =>
    let plugin_name := st.current_plugin_name.getD "unknown"
    if st.ui_handler_set = false then (st, none, Except.ok ())
    else
      let callback_id := st.next_ui_callback_id
      ({ st with
          next_ui_callback_id := (st.next_ui_callback_id + 1) % u64Mod
          ui_callbacks :=
            insertAssoc st.ui_callbacks (plugin_name, callback_id) callback },
       some (plugin_name, callback_id), Except.ok ())

/-- `helix.ui.confirm` from `src/lua/api/ui.rs`: identical control flow to
`ui_prompt` minus the default-text argument. -/
def ui_confirm (ctx : Option Editor) (st : LuaEngineState) (_message : String)
    (callback : RegistryKey) :
    LuaEngineState × Option (String × Nat) × Except String Unit :=
  match get_editor_mut ctx with
  | Except.error _ => (st, none, Except.ok ())
  | Except.ok _ =>
    let plugin_name := st.current_plugin_name.getD "unknown"
    if st.ui_handler_set = false then (st, none, Except.ok ())
    else
      let callback_id := st.next_ui_callback_id
      ({ st with
          next_ui_callback_id := (st.next_ui_callback_id + 1) % u64Mod
          ui_callbacks :=
            insertAssoc st.ui_callbacks (plugin_name, callback_id) callback },
       some (plugin_name, callback_id), Except.ok ())

/-- `helix.ui.picker` from `src/lua/api/ui.rs`: after the same silent
context/handler checks it extracts the options; a missing `on_select`
raises a runtime error (before any id is drawn); otherwise it registers
exactly like `ui_prompt`. -/
def ui_picker (ctx : Option Editor) (st : LuaEngineState)
    (_items : List String) (_prompt_text : String)
    (on_select : Option RegistryKey) :
    LuaEngineState × Option (String × Nat) × Except String Unit :=
  match get_editor_mut ctx with
  | Except.error _ => (st, none, Except.ok ())
  | Except.ok _ =>
    let plugin_name := st.current_plugin_name.getD "unknown"
    if st.ui_handler_set = false then (st, none, Except.ok ())
    else
      match on_select with
      | none => (st, none, Except.error "on_select callback required")
      | some callback =>
        let callback_id := st.next_ui_callback_id
        ({ st with
            next_ui_callback_id := (st.next_ui_callback_id + 1) % u64Mod
            ui_callbacks :=
              insertAssoc st.ui_callbacks (plugin_name, callback_id) callback },
         some (plugin_name, callback_id), Except.ok ())

/-- One scripted UI request: which entry point is hit, the editor-context
binding active at that moment, and the arguments. -/
inductive UiCall where
  | promptCall (ctx : Option Editor) (message : String)
      (default : Option String) (callback : RegistryKey)
  | confirmCall (ctx : Option Editor) (message : String)
      (callback : RegistryKey)
  | pickerCall (ctx : Option Editor) (items : List String)
      (prompt_text : String) (on_select : Option RegistryKey)
deriving DecidableEq

/-- Run one UI request, keeping the state and the `(plugin, id)` pair
passed to the UI handler (if the request registered anything). -/
def doUiCall (st : LuaEngineState) : UiCall → LuaEngineState × Option (String × Nat)
  | UiCall.promptCall ctx m d k =>
    let r := ui_prompt ctx st m d k
    (r.1, r.2.1)
  | UiCall.confirmCall ctx m k =>
    let r := ui_confirm ctx st m k
    (r.1, r.2.1)
  | UiCall.pickerCall ctx its p os =>
    let r := ui_picker ctx st its p os
    (r.1, r.2.1)

/-- Run a sequence of UI requests; each is tagged with the value the
interpreter-global `_current_plugin_name` holds while it executes.
Returns the final state and the `(plugin, id)` keys issued, in order. -/
def runUiCalls (st : LuaEngineState) :
    List (Option String × UiCall) → LuaEngineState × List (String × Nat)
  | [] => (st, [])
  | (pn, c) :: rest =>
    let r1 := doUiCall { st with current_plugin_name := pn } c
    let r2 := runUiCalls r1.1 rest
    (r2.1, (r1.2.toList) ++ r2.2)

/-- `LuaEngine::handle_ui_callback` from `src/lua/mod.rs`.  The entry for
`(plugin_name, callback_id)` is removed from the map first; only if one was
present is the stored callback retrieved (`registry_value`), the
`serde_json` payload converted (`lua.to_value`) and the callback invoked —
under `with_editor_context` — with that one converted argument.  Retrieval,
conversion and invocation are oracles; the returned list records the
invocations actually performed (callback handle, converted argument).  An
absent entry yields `Ok(())` with nothing invoked. -/
def handle_ui_callback {S L : Type} (st : LuaEngineState)
    (registry_value : RegistryKey → Except String Unit)
    (to_value : S → Except String L)
    (invoke : RegistryKey → L → Except String Unit)
    (plugin_name : String) (callback_id : Nat) (value : S) :
    LuaEngineState × List (RegistryKey × L) × Except PluginError Unit :=
  match lookupAssoc st.ui_callbacks (plugin_name, callback_id) with
  | none => (st, [], Except.ok ())
  | some callback_ref =>
    let st1 := { st with
      ui_callbacks := removeAssoc st.ui_callbacks (plugin_name, callback_id) }
    match registry_value callback_ref with
    | Except.error e => (st1, [], Except.error (PluginError.LuaError e))
    | Except.ok _ =>
      match to_value value with
      | Except.error e => (st1, [], Except.error (PluginError.LuaError e))
      | Except.ok lua_value =>
        match invoke callback_ref lua_value with
        | Except.error e =>
          (st1, [(callback_ref, lua_value)], Except.error (PluginError.LuaError e))
        | Except.ok _ =>
          (st1, [(callback_ref, lua_value)], Except.ok ())

/-- `EventData` from `src/types.rs`; `DocumentId` modelled as a number. -/
inductive EventData where
  | None
  | Buffer (document_id : Nat) (path : Option String)
  | ModeChange (old_mode : String) (new_mode : String)
  | KeyPress (key : String)
  | LspAttach (document_id : Nat) (language_server_id : Nat)
  | LspDiagnostic (document_id : Nat) (diagnostic_count : Nat)
deriving DecidableEq

/-- `PluginEvent` from `src/types.rs`. -/
structure PluginEvent where
  event_type : EventType
  data : EventData
deriving DecidableEq

/-- The Lua `event_data` table built by `call_event_handlers`
(`src/lua/mod.rs`): the `type` string plus the event-specific fields.  In
the source `document_id` is the `Debug`-formatted `DocumentId`; here the
number itself.  The `LspAttach` and `None` variants fall into the
catch-all arm and set nothing. -/
structure EventPayload where
  type : String
  document_id : Option Nat
  path : Option String
  old_mode : Option String
  new_mode : Option String
  key : Option String
  diagnostic_count : Option Nat
deriving DecidableEq

/-- Payload construction in `call_event_handlers`. -/
def buildEventData (event : PluginEvent) : EventPayload :=
  let base : EventPayload :=
    { type := event.event_type.as_str
      document_id := none
      path := none
      old_mode := none
      new_mode := none
      key := none
      diagnostic_count := none }
  match event.data with
  | EventData.Buffer document_id path =>
    { base with document_id := some document_id, path := path }
  | EventData.ModeChange old_mode new_mode =>
    { base with old_mode := some old_mode, new_mode := some new_mode }
  | EventData.KeyPress key => { base with key := some key }
  | EventData.LspDiagnostic document_id diagnostic_count =>
    { base with
        document_id := some document_id
        diagnostic_count := some diagnostic_count }
  | _ => base

/-- The per-handler loop body of `LuaEngine::call_event_handlers`: for each
`(plugin_name, callback_ref)` in order, retrieve the callback (a failure is
surfaced as `EventHandlerError` and — via `?` — stops the loop), then
invoke it under `with_editor_context` with the payload table (a failure is
surfaced as `EventHandlerError` and likewise stops the loop).  Returns the
handlers actually invoked, in order, and the overall result. -/
def dispatchHandlers (registry_value : RegistryKey → Except String Unit)
    (invoke : RegistryKey → EventPayload → Except String Unit)
    (event_data : EventPayload) :
    List (String × RegistryKey) →
    List (String × RegistryKey) × Except PluginError Unit
  | [] => ([], Except.ok ())
  | (plugin_name, callback_ref) :: rest =>
    match registry_value callback_ref with
    | Except.error e =>
      ([], Except.error (PluginError.EventHandlerError plugin_name
            ("Failed to retrieve callback: " ++ e)))
    | Except.ok _ =>
      match invoke callback_ref event_data with
      | Except.error e =>
        ([(plugin_name, callback_ref)],
         Except.error (PluginError.EventHandlerError plugin_name
            ("Handler execution failed: " ++ e)))
      | Except.ok _ =>
        let r := dispatchHandlers registry_value invoke event_data rest
        ((plugin_name, callback_ref) :: r.1, r.2)

/-- `LuaEngine::call_event_handlers` from `src/lua/mod.rs`. -/
def call_event_handlers (st : LuaEngineState)
    (registry_value : RegistryKey → Except String Unit)
    (invoke : RegistryKey → EventPayload → Except String Unit)
    (event : PluginEvent) :
    List (String × RegistryKey) × Except PluginError Unit :=
  dispatchHandlers registry_value invoke (buildEventData event)
    (handlersFor st event.event_type)

/-- A sequence of `helix.on` subscriptions: each is tagged with the value
of `_current_plugin_name` in force while the subscribing script runs. -/
def runSubscriptions :
    LuaEngineState → List (Option String × String × RegistryKey) → LuaEngineState
  | st, [] => st
  | st, (pn, en, k) :: rest =>
    runSubscriptions (helix_on { st with current_plugin_name := pn } en k).1 rest

/-- `LuaEngine::load_plugin` from `src/lua/mod.rs`.  File-system and
interpreter interactions are oracles: `entry_exists` is the
`entry_file.exists()` test, `read_script` the `fs::read_to_string` result,
and `exec_chunk` executes the chunk against the engine state (top-level
registration calls mutate the registries) and may fail.  The global
`_current_plugin_name` is set before execution; it is reset to nil only on
the successful path — the early `?` returns on read or execution failure
skip the reset.  The plugin enters the resident table only on success. -/
def load_plugin (st : LuaEngineState) (plugin : Plugin) (entry_exists : Bool)
    (read_script : Except String String)
    (exec_chunk : String → LuaEngineState → LuaEngineState × Except String Unit) :
    LuaEngineState × Except PluginError Unit :=
  if entry_exists = false then
    (st, Except.error (PluginError.InvalidPluginStructure "Entry file not found"))
  else
    let st1 := { st with current_plugin_name := some plugin.metadata.name }
    match read_script with
    | Except.error e => (st1, Except.error (PluginError.IoError e))
    | Except.ok code =>
      match exec_chunk code st1 with
      | (st2, Except.error e) => (st2, Except.error (PluginError.LuaError e))
      | (st2, Except.ok _) =>
        ({ st2 with
            current_plugin_name := none
            plugins := insertAssoc st2.plugins plugin.metadata.name plugin },
         Except.ok ())

/-- One entry of `PluginLoader::discover_plugins`' directory walk
(`src/lua/loader.rs`): the `exists()` / `is_dir()` tests and the
`read_dir` outcome; each subdirectory contributes its
`load_plugin_metadata` result. -/
structure DirListing where
  path_exists : Bool
  is_dir : Bool
  content : Except String (List (Except String Plugin))

/-- `PluginLoader::discover_plugins` from `src/lua/loader.rs`: missing or
non-directory paths are skipped; a failed directory read propagates
(`read_dir(dir)?` / `entry?`); a failed per-plugin metadata load is logged
and skipped; successful descriptors accumulate in walk order. -/
def discover_plugins : List DirListing → Except PluginError (List Plugin)
  | [] => Except.ok []
  | d :: rest =>
    if d.path_exists = false then discover_plugins rest
    else if d.is_dir = false then discover_plugins rest
    else
      match d.content with
      | Except.error e => Except.error (PluginError.IoError e)
      | Except.ok entries =>
        let found := entries.filterMap (fun r =>
          match r with
          | Except.ok p => some p
          | Except.error _ => none)
        match discover_plugins rest with
        | Except.error e => Except.error e
        | Except.ok ps => Except.ok (found ++ ps)

/-- `PluginManager::is_plugin_enabled` from `src/lib.rs`. -/
def is_plugin_enabled (config : PluginConfig) (name : String) : Bool :=
  match config.plugins.find? (fun p => decide (p.name = name)) with
  | some plugin_config => plugin_config.enabled
  | none => true

/-- The per-plugin loop body of `PluginManager::initialize` (`src/lib.rs`):
skip a plugin disabled by configuration; otherwise attempt `load_plugin`,
keeping only the resulting engine state — a load error is logged
(`log::error!`) and dropped. -/
def loadStep (config : PluginConfig)
    (entry_exists : String → Bool)
    (read_script : String → Except String String)
    (exec_chunk : String → String → LuaEngineState → LuaEngineState × Except String Unit)
    (acc : LuaEngineState) (p : Plugin) : LuaEngineState :=
  if is_plugin_enabled config p.metadata.name = false then acc
  else
    (load_plugin acc p (entry_exists p.metadata.name)
      (read_script p.metadata.name) (exec_chunk p.metadata.name)).1

/-- `PluginManager::initialize` from `src/lib.rs`.  Discovery runs first
and its error — note the `discover_plugins()?` — propagates, aborting
before any load and before the init event.  Each discovered plugin is
folded through `loadStep` in discovery order.  Finally one `init` event is
fired; the middle component reports whether that firing was reached.  The
per-plugin oracles are keyed by plugin name. -/
def managerInit (config : PluginConfig) (st : LuaEngineState)
    (dirs : List DirListing)
    (entry_exists : String → Bool)
    (read_script : String → Except String String)
    (exec_chunk : String → String → LuaEngineState → LuaEngineState × Except String Unit)
    (registry_value : RegistryKey → Except String Unit)
    (invoke : RegistryKey → EventPayload → Except String Unit) :
    LuaEngineState × Bool × Except PluginError Unit :=
  match discover_plugins dirs with
  | Except.error e => (st, false, Except.error e)
  | Except.ok plugins =>
    let st1 := plugins.foldl
      (loadStep config entry_exists read_script exec_chunk) st
    let r := call_event_handlers st1 registry_value invoke
      { event_type := EventType.OnInit, data := EventData.None }
    (st1, true, r.2)

/-- A concrete editor value for witnesses. -/
def editor0 : Editor := { status := none }

/-- A concrete plugin descriptor for witnesses. -/
def pluginA : Plugin :=
  { metadata :=
      { name := "alpha"
        version := "0.1.0"
        description := none
        author := none
        entry := some "init.lua" }
    path := "plugins/alpha"
    enabled := true }

/-- A second concrete plugin descriptor for witnesses. -/
def pluginB : Plugin :=
  { metadata :=
      { name := "beta"
        version := "0.1.0"
        description := none
        author := none
        entry := some "init.lua" }
    path := "plugins/beta"
    enabled := true }

/-- A script-execution oracle whose chunk fails at top level without
touching the engine state. -/
def chunkFail : String → LuaEngineState → LuaEngineState × Except String Unit :=
  fun _ st => (st, Except.error "runtime error in plugin script")

/-- Body of an inner (reentrant) dispatch that does nothing. -/
def innerDispatchBody : Option Editor → Unit × Option Editor :=
  fun s => ((), s)

/-- Body of an outer dispatch that synchronously performs an inner
dispatch and then — in its remaining extent — probes the context the way
any host-accessing API function does. -/
def outerDispatchBody : Option Editor → Except String Editor × Option Editor :=
  fun s =>
    let inner := with_editor_context editor0 innerDispatchBody s
    (get_editor_mut inner.2, inner.2)

/-- A default plugin configuration (everything enabled, no overrides). -/
def configDefault : PluginConfig :=
  { enabled := true, plugin_dirs := [], plugins := [] }

/-- A directory listing whose `read_dir` fails. -/
def badDir : DirListing :=
  { path_exists := true, is_dir := true
    content := Except.error "permission denied" }

/-- A directory listing discovering `pluginA` then `pluginB`. -/
def dirAB : DirListing :=
  { path_exists := true, is_dir := true
    content := Except.ok [Except.ok pluginA, Except.ok pluginB] }

/-- A per-plugin execution oracle: the chunk of plugin `"alpha"` raises,
every other chunk succeeds; no chunk touches the engine state. -/
def execAlphaFails :
    String → String → LuaEngineState → LuaEngineState × Except String Unit :=
  fun n _ st => (st, if n = "alpha" then Except.error "boom" else Except.ok ())

/-- An engine holding one pending UI callback: key `("alpha", 1)`,
callback handle `42`. -/
def engineWithUiEntry : LuaEngineState :=
  { engineReady with ui_callbacks := [(("alpha", 1), 42)] }

/-- A UI request used to drive the callback-id counter in theorems: a
prompt issued with an editor context bound and no ambient plugin name. -/
def promptCallA : Option String × UiCall :=
  (none, UiCall.promptCall (some editor0) "choose" none 0)

/-! ## Helper lemmas -/

theorem find?_filter_of_imp {α : Type} (l : List α) (p q : α → Bool)
    (h : ∀ a, p a = true → q a = true) :
    (l.filter q).find? p = l.find? p := by
  induction l with
  | nil => rfl
  | cons x xs ih =>
    by_cases hq : q x = true
    · by_cases hp : p x = true
      · simp [List.filter_cons, hq, List.find?, hp]
      · simp [List.filter_cons, hq, List.find?, hp, ih]
    · have hp : p x = false := by
        cases hpx : p x
        · rfl
        · exact absurd (h x hpx) hq
      simp [List.filter_cons, hq, List.find?, hp, ih]

theorem lookupAssoc_insert_self {κ ν : Type} [DecidableEq κ]
    (m : List (κ × ν)) (k : κ) (v : ν) :
    lookupAssoc (insertAssoc m k v) k = some v := by
  simp [lookupAssoc, insertAssoc, List.find?]

theorem lookupAssoc_insert_ne {κ ν : Type} [DecidableEq κ]
    (m : List (κ × ν)) (k k' : κ) (v : ν) (h : k' ≠ k) :
    lookupAssoc (insertAssoc m k v) k' = lookupAssoc m k' := by
  have hh : (fun (e : κ × ν) => decide (e.1 = k')) ((k, v)) = false := by
    simp
    exact fun he => h he.symm
  simp only [lookupAssoc, insertAssoc, List.find?, hh]
  rw [find?_filter_of_imp]
  intro a ha
  simp at ha ⊢
  rw [ha]
  exact h

theorem find?_filter_none {α : Type} (l : List α) (p q : α → Bool)
    (h : ∀ a, p a = true → q a = false) :
    (l.filter q).find? p = none := by
  rw [List.find?_eq_none]
  intro x hx hpx
  rw [List.mem_filter] at hx
  rw [h x hpx] at hx
  exact Bool.noConfusion hx.2

theorem lookupAssoc_remove_self {κ ν : Type} [DecidableEq κ]
    (m : List (κ × ν)) (k : κ) :
    lookupAssoc (removeAssoc m k) k = none := by
  unfold lookupAssoc removeAssoc
  rw [find?_filter_none]
  · rfl
  · intro a ha
    simp only [decide_eq_true_eq] at ha
    simp [ha]

/-! ## Claim C2 -/

/-- Claim C2 counterexample: `helix.ui.notify`, a host-accessing API
function, invoked while no `HostContext` binding is active, does not fail
at all — it returns success and touches nothing — contradicting the claim
that every such call fails with `ApiAccessError`. -/
theorem c2_counterexample :
    ui_notify none "hello" = (none, Except.ok ()) := rfl

/-- Claim C2 (amended): with no active binding, `get_editor_mut` fails
with the no-active-context runtime error, and API functions that
propagate it (e.g. `helix.ui.set_status`) fail likewise; but the API
functions that swallow the error — `helix.ui.notify` and the deferred UI
request entry points such as `helix.ui.prompt` — return success without
touching host state or registering anything. -/
theorem c2_amended :
    (get_editor_mut none = Except.error noActiveContextMsg)
    ∧ (∀ m : String, ui_set_status none m = (none, Except.error noActiveContextMsg))
    ∧ (∀ m : String, ui_notify none m = (none, Except.ok ()))
    ∧ (∀ (st : LuaEngineState) (m : String) (d : Option String) (k : RegistryKey),
        ui_prompt none st m d k = (st, none, Except.ok ())) :=
  ⟨rfl, fun _ => rfl, fun _ => rfl, fun _ _ _ _ => rfl⟩

/-! ## Claim C7 -/

/-- Claim C7 counterexample: an outer dispatch binds the context, its body
synchronously performs an inner dispatch, and after the inner dispatch
completes the remainder of the outer dispatch observes no binding — an
API probe there fails with the no-active-context error, contradicting the
claim that the binding remains active for the remainder of the outer
dispatch. -/
theorem c7_counterexample :
    (with_editor_context editor0 outerDispatchBody (some editor0)).1
      = Except.error noActiveContextMsg := rfl

/-- Claim C7 (amended): a dispatch started while a binding is active
overwrites the binding with its own editor reference, and on completion
unconditionally clears it to `none` rather than restoring the outer
binding; the remainder of the outer dispatch therefore runs with no
active binding and any host-accessing API call there fails. -/
theorem c7_amended :
    ∀ (e1 e2 : Editor) (g : Option Editor → Unit × Option Editor),
      (with_editor_context e2 g (some e1)).2 = none
      ∧ get_editor_mut (with_editor_context e2 g (some e1)).2
          = Except.error noActiveContextMsg :=
  fun _ _ _ => ⟨rfl, rfl⟩

/-! ## Claim C8 -/

/-- Claim C8: the event-name mapping is total and bijective on recognized
names — `from_str` inverts `as_str`, `as_str` inverts `from_str` on every
recognized name — and `helix.on` rejects an unrecognized name with a
runtime error at subscription time, leaving the engine unchanged. -/
theorem c8_event_name_bijection :
    (∀ t : EventType, EventType.from_str (EventType.as_str t) = some t)
    ∧ (∀ (s : String) (t : EventType),
        EventType.from_str s = some t → EventType.as_str t = s)
    ∧ (∀ (st : LuaEngineState) (s : String) (k : RegistryKey),
        EventType.from_str s = none →
          helix_on st s k = (st, Except.error ("Invalid event type: " ++ s))) := by
  refine ⟨?_, ?_, ?_⟩
  · intro t
    cases t <;> rfl
  · intro s t h
    unfold EventType.from_str at h
    cases hf : eventNames.find? (fun e => decide (e.1 = s)) with
    | none => rw [hf] at h; exact Option.noConfusion h
    | some e =>
      rw [hf] at h
      simp only [Option.map_some', Option.some.injEq] at h
      have hmem := List.mem_of_find?_eq_some hf
      have hps := List.find?_some hf
      simp only [decide_eq_true_eq] at hps
      have hall : ∀ x ∈ eventNames, EventType.as_str x.2 = x.1 := by decide
      rw [← h, ← hps]
      exact hall e hmem
  · intro st s k h
    unfold helix_on
    rw [h]

/-- Claim C8 witness: the round trips at concrete names, and a concrete
rejected subscription. -/
theorem c8_event_name_bijection_witness :
    EventType.from_str (EventType.as_str EventType.OnBufferOpen)
        = some EventType.OnBufferOpen
    ∧ EventType.as_str EventType.OnModeChange = "mode_change"
    ∧ helix_on engineReady "bogus_event" 7
        = (engineReady, Except.error ("Invalid event type: " ++ "bogus_event")) :=
  ⟨c8_event_name_bijection.1 EventType.OnBufferOpen,
   c8_event_name_bijection.2.1 "mode_change" EventType.OnModeChange (by decide),
   c8_event_name_bijection.2.2 engineReady "bogus_event" 7 (by decide)⟩

/-! ## Claim C6 -/

/-- Claim C6: `handle_ui_callback` is single-consumer per `(plugin, id)`
key — the first call on a present key removes the entry and invokes the
stored callback exactly once with the converted value; a call on an
absent key (in particular any repeated call) invokes nothing and returns
success. -/
theorem c6_ui_callback_consumed_once :
    (∀ (S L : Type) (st : LuaEngineState)
      (rv : RegistryKey → Except String Unit) (tv : S → Except String L)
      (iv : RegistryKey → L → Except String Unit)
      (p : String) (id : Nat) (v : S) (k : RegistryKey) (lv : L),
      lookupAssoc st.ui_callbacks (p, id) = some k →
      rv k = Except.ok () →
      tv v = Except.ok lv →
      ((handle_ui_callback st rv tv iv p id v).2.1 = [(k, lv)]
        ∧ lookupAssoc (handle_ui_callback st rv tv iv p id v).1.ui_callbacks
            (p, id) = none
        ∧ handle_ui_callback (handle_ui_callback st rv tv iv p id v).1
            rv tv iv p id v
            = ((handle_ui_callback st rv tv iv p id v).1, [], Except.ok ())))
    ∧ (∀ (S L : Type) (st : LuaEngineState)
      (rv : RegistryKey → Except String Unit) (tv : S → Except String L)
      (iv : RegistryKey → L → Except String Unit)
      (p : String) (id : Nat) (v : S),
      lookupAssoc st.ui_callbacks (p, id) = none →
      handle_ui_callback st rv tv iv p id v = (st, [], Except.ok ())) := by
  have habsent : ∀ (S L : Type) (st : LuaEngineState)
      (rv : RegistryKey → Except String Unit) (tv : S → Except String L)
      (iv : RegistryKey → L → Except String Unit)
      (p : String) (id : Nat) (v : S),
      lookupAssoc st.ui_callbacks (p, id) = none →
      handle_ui_callback st rv tv iv p id v = (st, [], Except.ok ()) := by
    intro S L st rv tv iv p id v h
    unfold handle_ui_callback
    rw [h]
  refine ⟨?_, habsent⟩
  intro S L st rv tv iv p id v k lv hlook hrv htv
  have h1 : (handle_ui_callback st rv tv iv p id v).1
        = { st with ui_callbacks := removeAssoc st.ui_callbacks (p, id) }
      ∧ (handle_ui_callback st rv tv iv p id v).2.1 = [(k, lv)] := by
    unfold handle_ui_callback
    rw [hlook]
    cases hiv : iv k lv with
    | ok u => simp [hrv, htv, hiv]
    | error e => simp [hrv, htv, hiv]
  have h2 : lookupAssoc (handle_ui_callback st rv tv iv p id v).1.ui_callbacks
      (p, id) = none := by
    rw [h1.1]
    exact lookupAssoc_remove_self st.ui_callbacks (p, id)
  exact ⟨h1.2, h2, habsent S L _ rv tv iv p id v h2⟩

/-- Claim C6 witness: a concrete engine holding entry `(("alpha",1), 42)`;
delivering value `5` invokes callback `42` once with `5`, removes the
entry, and a second delivery is a silent no-op, as is delivery to the
empty engine. -/
theorem c6_ui_callback_consumed_once_witness :
    ((handle_ui_callback engineWithUiEntry (fun _ => Except.ok ())
        (fun n : Nat => Except.ok n) (fun _ _ => Except.ok ())
        "alpha" 1 5).2.1 = [(42, 5)]
      ∧ lookupAssoc (handle_ui_callback engineWithUiEntry (fun _ => Except.ok ())
          (fun n : Nat => Except.ok n) (fun _ _ => Except.ok ())
          "alpha" 1 5).1.ui_callbacks ("alpha", 1) = none
      ∧ handle_ui_callback (handle_ui_callback engineWithUiEntry
            (fun _ => Except.ok ()) (fun n : Nat => Except.ok n)
            (fun _ _ => Except.ok ()) "alpha" 1 5).1
          (fun _ => Except.ok ()) (fun n : Nat => Except.ok n)
          (fun _ _ => Except.ok ()) "alpha" 1 5
          = ((handle_ui_callback engineWithUiEntry (fun _ => Except.ok ())
              (fun n : Nat => Except.ok n) (fun _ _ => Except.ok ())
              "alpha" 1 5).1, [], Except.ok ()))
    ∧ handle_ui_callback engineReady (fun _ => Except.ok ())
        (fun n : Nat => Except.ok n) (fun _ _ => Except.ok ())
        "alpha" 1 5 = (engineReady, [], Except.ok ()) :=
  ⟨c6_ui_callback_consumed_once.1 Nat Nat engineWithUiEntry
      (fun _ => Except.ok ()) (fun n : Nat => Except.ok n)
      (fun _ _ => Except.ok ()) "alpha" 1 5 42 5 (by decide) rfl rfl,
   c6_ui_callback_consumed_once.2 Nat Nat engineReady
      (fun _ => Except.ok ()) (fun n : Nat => Except.ok n)
      (fun _ _ => Except.ok ()) "alpha" 1 5 (by decide)⟩

/-! ## Claim C9 -/

theorem doUiCall_spec (st : LuaEngineState) (pn : Option String) (c : UiCall) :
    ((doUiCall { st with current_plugin_name := pn } c).1
        = { st with current_plugin_name := pn }
      ∧ (doUiCall { st with current_plugin_name := pn } c).2 = none)
    ∨ (∃ cb : RegistryKey, doUiCall { st with current_plugin_name := pn } c
        = ({ st with
              current_plugin_name := pn
              next_ui_callback_id := (st.next_ui_callback_id + 1) % u64Mod
              ui_callbacks := insertAssoc st.ui_callbacks
                (pn.getD "unknown", st.next_ui_callback_id) cb },
           some (pn.getD "unknown", st.next_ui_callback_id))) := by
  cases c with
  | promptCall ctx m d k =>
    cases ctx with
    | none => exact Or.inl ⟨rfl, rfl⟩
    | some e =>
      by_cases hu : st.ui_handler_set = true
      · exact Or.inr ⟨k, by simp [doUiCall, ui_prompt, get_editor_mut, hu]⟩
      · have hu' : st.ui_handler_set = false := by simpa using hu
        refine Or.inl ⟨?_, ?_⟩ <;>
          simp [doUiCall, ui_prompt, get_editor_mut, hu']
  | confirmCall ctx m k =>
    cases ctx with
    | none => exact Or.inl ⟨rfl, rfl⟩
    | some e =>
      by_cases hu : st.ui_handler_set = true
      · exact Or.inr ⟨k, by simp [doUiCall, ui_confirm, get_editor_mut, hu]⟩
      · have hu' : st.ui_handler_set = false := by simpa using hu
        refine Or.inl ⟨?_, ?_⟩ <;>
          simp [doUiCall, ui_confirm, get_editor_mut, hu']
  | pickerCall ctx its p os =>
    cases ctx with
    | none => exact Or.inl ⟨rfl, rfl⟩
    | some e =>
      by_cases hu : st.ui_handler_set = true
      · cases os with
        | none =>
          refine Or.inl ⟨?_, ?_⟩ <;>
            simp [doUiCall, ui_picker, get_editor_mut, hu]
        | some k =>
          exact Or.inr ⟨k, by simp [doUiCall, ui_picker, get_editor_mut, hu]⟩
      · have hu' : st.ui_handler_set = false := by simpa using hu
        refine Or.inl ⟨?_, ?_⟩ <;>
          simp [doUiCall, ui_picker, get_editor_mut, hu']

theorem runUiCalls_cons (st : LuaEngineState) (pn : Option String) (c : UiCall)
    (tl : List (Option String × UiCall)) :
    runUiCalls st ((pn, c) :: tl)
      = ((runUiCalls (doUiCall { st with current_plugin_name := pn } c).1 tl).1,
         (doUiCall { st with current_plugin_name := pn } c).2.toList
           ++ (runUiCalls (doUiCall { st with current_plugin_name := pn } c).1 tl).2) :=
  rfl

theorem range_mod_cons (c0 n : Nat) (hc : c0 < u64Mod) :
    c0 :: (List.range n).map (fun i => ((c0 + 1) % u64Mod + i) % u64Mod)
      = (List.range (n + 1)).map (fun i => (c0 + i) % u64Mod) := by
  rw [List.range_succ_eq_map, List.map_cons, List.map_map]
  congr 1
  · rw [Nat.add_zero, Nat.mod_eq_of_lt hc]
  · congr 1
    funext i
    simp only [Function.comp]
    rw [Nat.mod_add_mod]
    congr 1
    omega

theorem mod_step_add (c0 n : Nat) :
    ((c0 + 1) % u64Mod + n) % u64Mod = (c0 + (n + 1)) % u64Mod := by
  rw [Nat.mod_add_mod]
  congr 1
  omega

theorem u64Mod_pos : 0 < u64Mod := by
  norm_num [u64Mod]

theorem runUiCalls_ids :
    ∀ (cs : List (Option String × UiCall)) (st : LuaEngineState),
      st.next_ui_callback_id < u64Mod →
      ∃ n : Nat,
        (runUiCalls st cs).2.map Prod.snd
            = (List.range n).map (fun i => (st.next_ui_callback_id + i) % u64Mod)
        ∧ (runUiCalls st cs).1.next_ui_callback_id
            = (st.next_ui_callback_id + n) % u64Mod := by
  intro cs
  induction cs with
  | nil =>
    intro st hc
    refine ⟨0, by simp [runUiCalls], ?_⟩
    simp [runUiCalls, Nat.mod_eq_of_lt hc]
  | cons hd tl ih =>
    obtain ⟨pn, c⟩ := hd
    intro st hc
    rcases doUiCall_spec st pn c with ⟨h1, h2⟩ | ⟨cb, hissue⟩
    · obtain ⟨n, hids0, hctr0⟩ :=
        ih { st with current_plugin_name := pn } hc
      have hids : (runUiCalls ({ st with current_plugin_name := pn } :
              LuaEngineState) tl).2.map Prod.snd
          = (List.range n).map
              (fun i => (st.next_ui_callback_id + i) % u64Mod) := hids0
      have hctr : (runUiCalls ({ st with current_plugin_name := pn } :
              LuaEngineState) tl).1.next_ui_callback_id
          = (st.next_ui_callback_id + n) % u64Mod := hctr0
      refine ⟨n, ?_, ?_⟩
      · rw [runUiCalls_cons, h1, h2]
        simpa using hids
      · rw [runUiCalls_cons, h1]
        exact hctr
    · obtain ⟨n, hids0, hctr0⟩ := ih
        ({ st with
            current_plugin_name := pn
            next_ui_callback_id := (st.next_ui_callback_id + 1) % u64Mod
            ui_callbacks := insertAssoc st.ui_callbacks
              (pn.getD "unknown", st.next_ui_callback_id) cb } : LuaEngineState)
        (Nat.mod_lt _ u64Mod_pos)
      have hids : (runUiCalls ({ st with
              current_plugin_name := pn
              next_ui_callback_id := (st.next_ui_callback_id + 1) % u64Mod
              ui_callbacks := insertAssoc st.ui_callbacks
                (pn.getD "unknown", st.next_ui_callback_id) cb } :
              LuaEngineState) tl).2.map Prod.snd
          = (List.range n).map
              (fun i => ((st.next_ui_callback_id + 1) % u64Mod + i) % u64Mod) :=
        hids0
      have hctr : (runUiCalls ({ st with
              current_plugin_name := pn
              next_ui_callback_id := (st.next_ui_callback_id + 1) % u64Mod
              ui_callbacks := insertAssoc st.ui_callbacks
                (pn.getD "unknown", st.next_ui_callback_id) cb } :
              LuaEngineState) tl).1.next_ui_callback_id
          = ((st.next_ui_callback_id + 1) % u64Mod + n) % u64Mod := hctr0
      refine ⟨n + 1, ?_, ?_⟩
      · rw [runUiCalls_cons, hissue]
        simp only [Option.toList_some, List.singleton_append, List.map_cons]
        rw [hids]
        exact range_mod_cons st.next_ui_callback_id n hc
      · rw [runUiCalls_cons, hissue]
        rw [hctr]
        exact mod_step_add st.next_ui_callback_id n

theorem getD_range_map (f : Nat → Nat) (n i d : Nat) (h : i < n) :
    ((List.range n).map f).getD i d = f i := by
  rw [List.getD_eq_getElem?_getD, List.getElem?_map, List.getElem?_range h]
  rfl

/-- Claim C9 (amended): every UI request registration — prompt, confirm or
picker, from any plugin — draws its id from the single engine-wide
counter, so in any request sequence the ids issued are consecutive
counter values and each new id is strictly greater than every previously
issued id as long as fewer than `2 ^ 64` ids have ever been drawn (the
`AtomicU64` counter wraps at that bound). -/
theorem c9_shared_counter_monotonic :
    ∀ (st : LuaEngineState) (cs : List (Option String × UiCall)) (i j : Nat),
      st.next_ui_callback_id < u64Mod →
      st.next_ui_callback_id + j < u64Mod →
      i < j →
      j < (runUiCalls st cs).2.length →
      ((runUiCalls st cs).2.map Prod.snd).getD i 0
        < ((runUiCalls st cs).2.map Prod.snd).getD j 0 := by
  intro st cs i j hc hb hij hj
  obtain ⟨n, hids, _⟩ := runUiCalls_ids cs st hc
  have hlen : (runUiCalls st cs).2.length = n := by
    have hl := congrArg List.length hids
    simpa using hl
  rw [hids, getD_range_map _ _ _ _ (by omega), getD_range_map _ _ _ _ (by omega)]
  rw [Nat.mod_eq_of_lt (by omega), Nat.mod_eq_of_lt (by omega)]
  omega

/-- Claim C9 witness: two consecutive prompts on a fresh engine draw
ids `1` then `2`. -/
theorem c9_shared_counter_monotonic_witness :
    ((runUiCalls engineReady [promptCallA, promptCallA]).2.map Prod.snd).getD 0 0
      < ((runUiCalls engineReady [promptCallA, promptCallA]).2.map Prod.snd).getD 1 0 :=
  c9_shared_counter_monotonic engineReady [promptCallA, promptCallA] 0 1
    (by decide) (by decide) (by decide) (by decide)

theorem replicate_prompt_ids :
    ∀ (n : Nat) (st : LuaEngineState),
      st.ui_handler_set = true →
      st.next_ui_callback_id < u64Mod →
      (runUiCalls st (List.replicate n promptCallA)).2.map Prod.snd
        = (List.range n).map (fun i => (st.next_ui_callback_id + i) % u64Mod) := by
  intro n
  induction n with
  | zero =>
    intro st h1 h2
    simp [runUiCalls]
  | succ m ih =>
    intro st h1 h2
    have hstep : doUiCall { st with current_plugin_name := none }
        (UiCall.promptCall (some editor0) "choose" none 0)
        = ({ st with
              current_plugin_name := none
              next_ui_callback_id := (st.next_ui_callback_id + 1) % u64Mod
              ui_callbacks := insertAssoc st.ui_callbacks
                ("unknown", st.next_ui_callback_id) 0 },
           some ("unknown", st.next_ui_callback_id)) := by
      simp [doUiCall, ui_prompt, get_editor_mut, h1]
    obtain hrec := ih
      ({ st with
          current_plugin_name := none
          next_ui_callback_id := (st.next_ui_callback_id + 1) % u64Mod
          ui_callbacks := insertAssoc st.ui_callbacks
            ("unknown", st.next_ui_callback_id) 0 } : LuaEngineState)
      h1 (Nat.mod_lt _ u64Mod_pos)
    have hrec2 : (runUiCalls ({ st with
            current_plugin_name := none
            next_ui_callback_id := (st.next_ui_callback_id + 1) % u64Mod
            ui_callbacks := insertAssoc st.ui_callbacks
              ("unknown", st.next_ui_callback_id) 0 } : LuaEngineState)
          (List.replicate m promptCallA)).2.map Prod.snd
        = (List.range m).map
            (fun i => ((st.next_ui_callback_id + 1) % u64Mod + i) % u64Mod) :=
      hrec
    rw [List.replicate_succ]
    show (runUiCalls st ((none, UiCall.promptCall (some editor0) "choose" none 0)
        :: List.replicate m promptCallA)).2.map Prod.snd = _
    rw [runUiCalls_cons, hstep]
    simp only [Option.toList_some, List.singleton_append, List.map_cons]
    rw [hrec2]
    exact range_mod_cons st.next_ui_callback_id m h2

/-- Claim C9 counterexample: starting from a fresh engine (counter `1`),
issue `2 ^ 64` UI requests; the first id issued is `1` but the last —
issued strictly later — is `0`, because `AtomicU64::fetch_add` wraps.  So
a newly issued id is not strictly greater than every previously issued
id, as the claim states unconditionally. -/
theorem c9_counterexample :
    ((runUiCalls engineReady (List.replicate u64Mod promptCallA)).2.map
        Prod.snd).getD 0 0 = 1
    ∧ ((runUiCalls engineReady (List.replicate u64Mod promptCallA)).2.map
        Prod.snd).getD (u64Mod - 1) 0 = 0
    ∧ 0 < u64Mod - 1 := by
  have hf := replicate_prompt_ids u64Mod engineReady rfl (by decide)
  refine ⟨?_, ?_, by norm_num [u64Mod]⟩
  · rw [hf, getD_range_map _ _ _ _ u64Mod_pos]
    have h1 : (engineReady.next_ui_callback_id : Nat) = 1 := rfl
    rw [h1]
    norm_num [u64Mod]
  · rw [hf, getD_range_map _ _ _ _ (by norm_num [u64Mod])]
    have h1 : (engineReady.next_ui_callback_id : Nat) = 1 := rfl
    rw [h1]
    norm_num [u64Mod]

/-! ## Claims C4, C5, C10: event dispatch -/

theorem dispatchHandlers_all_ok
    (rv : RegistryKey → Except String Unit)
    (iv : RegistryKey → EventPayload → Except String Unit)
    (pd : EventPayload) :
    ∀ hs : List (String × RegistryKey),
      (∀ x ∈ hs, rv x.2 = Except.ok () ∧ iv x.2 pd = Except.ok ()) →
      dispatchHandlers rv iv pd hs = (hs, Except.ok ()) := by
  intro hs
  induction hs with
  | nil => intro _; rfl
  | cons x xs ih =>
    intro h
    obtain ⟨pn, k⟩ := x
    have hrv : rv k = Except.ok () := (h (pn, k) (List.mem_cons_self _ _)).1
    have hiv : iv k pd = Except.ok () := (h (pn, k) (List.mem_cons_self _ _)).2
    simp only [dispatchHandlers, hrv, hiv]
    rw [ih (fun y hy => h y (List.mem_cons_of_mem _ hy))]

theorem dispatchHandlers_first_fail
    (rv : RegistryKey → Except String Unit)
    (iv : RegistryKey → EventPayload → Except String Unit)
    (pd : EventPayload) :
    ∀ (pre : List (String × RegistryKey)) (p : String) (k : RegistryKey)
      (post : List (String × RegistryKey)) (e : String),
      (∀ x ∈ pre, rv x.2 = Except.ok () ∧ iv x.2 pd = Except.ok ()) →
      rv k = Except.ok () →
      iv k pd = Except.error e →
      dispatchHandlers rv iv pd (pre ++ (p, k) :: post)
        = (pre ++ [(p, k)],
           Except.error (PluginError.EventHandlerError p
             ("Handler execution failed: " ++ e))) := by
  intro pre
  induction pre with
  | nil =>
    intro p k post e _ hrv hiv
    simp only [List.nil_append, dispatchHandlers, hrv, hiv]
  | cons x xs ih =>
    intro p k post e hpre hrv hiv
    obtain ⟨pn, kx⟩ := x
    have h1 : rv kx = Except.ok () := (hpre (pn, kx) (List.mem_cons_self _ _)).1
    have h2 : iv kx pd = Except.ok () := (hpre (pn, kx) (List.mem_cons_self _ _)).2
    simp only [List.cons_append, dispatchHandlers, h1, h2, List.append_eq]
    rw [ih p k post e (fun y hy => hpre y (List.mem_cons_of_mem _ hy)) hrv hiv]

/-- Claim C4: during event firing, the first handler whose invocation
fails halts dispatch — handlers after it are not invoked — and the failure
surfaces as `EventHandlerError` carrying the owning plugin's name and the
execution error. -/
theorem c4_first_failure_halts :
    ∀ (st : LuaEngineState) (rv : RegistryKey → Except String Unit)
      (iv : RegistryKey → EventPayload → Except String Unit)
      (event : PluginEvent) (pre post : List (String × RegistryKey))
      (p : String) (k : RegistryKey) (e : String),
      handlersFor st event.event_type = pre ++ (p, k) :: post →
      (∀ x ∈ pre, rv x.2 = Except.ok ()
        ∧ iv x.2 (buildEventData event) = Except.ok ()) →
      rv k = Except.ok () →
      iv k (buildEventData event) = Except.error e →
      call_event_handlers st rv iv event
        = (pre ++ [(p, k)],
           Except.error (PluginError.EventHandlerError p
             ("Handler execution failed: " ++ e))) := by
  intro st rv iv event pre post p k e hh hpre hrv hiv
  unfold call_event_handlers
  rw [hh]
  exact dispatchHandlers_first_fail rv iv _ pre p k post e hpre hrv hiv

/-- Claim C4 witness: three handlers for `buffer_open` from three plugins;
the second one fails — the first two are invoked, the third is not, and
the error names plugin `"beta"`. -/
theorem c4_first_failure_halts_witness :
    call_event_handlers
        { engineReady with
            event_handlers :=
              [(EventType.OnBufferOpen, [("alpha", 1), ("beta", 2), ("gamma", 3)])] }
        (fun _ => Except.ok ())
        (fun k _ => if k = 2 then Except.error "boom" else Except.ok ())
        { event_type := EventType.OnBufferOpen, data := EventData.Buffer 7 none }
      = ([("alpha", 1), ("beta", 2)],
         Except.error (PluginError.EventHandlerError "beta"
           ("Handler execution failed: " ++ "boom"))) :=
  c4_first_failure_halts
    { engineReady with
        event_handlers :=
          [(EventType.OnBufferOpen, [("alpha", 1), ("beta", 2), ("gamma", 3)])] }
    (fun _ => Except.ok ())
    (fun k _ => if k = 2 then Except.error "boom" else Except.ok ())
    { event_type := EventType.OnBufferOpen, data := EventData.Buffer 7 none }
    [("alpha", 1)] [("gamma", 3)] "beta" 2 "boom"
    (by decide) (by simp) rfl rfl

theorem handlersFor_set_current (st : LuaEngineState) (pn : Option String)
    (t : EventType) :
    handlersFor { st with current_plugin_name := pn } t = handlersFor st t :=
  rfl

theorem handlersFor_helix_on (st : LuaEngineState) (s : String)
    (k : RegistryKey) (t : EventType) :
    handlersFor (helix_on st s k).1 t
      = if EventType.from_str s = some t
          then handlersFor st t ++ [(st.current_plugin_name.getD "unknown", k)]
          else handlersFor st t := by
  cases hf : EventType.from_str s with
  | none => simp [helix_on, hf]
  | some t' =>
    by_cases ht : t' = t
    · subst ht
      simp [helix_on, hf, handlersFor, lookupAssoc_insert_self]
    · have hne : t ≠ t' := fun hh => ht hh.symm
      simp only [helix_on, hf]
      have hins := lookupAssoc_insert_ne st.event_handlers t' t
        (handlersFor st t' ++ [(st.current_plugin_name.getD "unknown", k)]) hne
      simp only [handlersFor] at hins ⊢
      rw [hins]
      simp [Option.some.injEq, ht]

theorem handlersFor_runSubscriptions :
    ∀ (subs : List (Option String × String × RegistryKey))
      (st : LuaEngineState) (t : EventType),
      handlersFor (runSubscriptions st subs) t
        = handlersFor st t
          ++ subs.filterMap (fun c =>
               if EventType.from_str c.2.1 = some t
                 then some (c.1.getD "unknown", c.2.2) else none) := by
  intro subs
  induction subs with
  | nil =>
    intro st t
    simp [runSubscriptions]
  | cons hd tl ih =>
    obtain ⟨pn, en, k⟩ := hd
    intro st t
    simp only [runSubscriptions]
    rw [ih]
    rw [handlersFor_helix_on, handlersFor_set_current]
    by_cases hf : EventType.from_str en = some t
    · simp [hf, List.filterMap_cons]
    · simp [hf, List.filterMap_cons]

/-- Claim C5: firing an event on an engine built by any sequence of
`helix.on` subscriptions invokes exactly the handlers subscribed for that
event type, in subscription order, regardless of which plugin registered
each handler (when no handler fails). -/
theorem c5_dispatch_in_subscription_order :
    ∀ (subs : List (Option String × String × RegistryKey))
      (rv : RegistryKey → Except String Unit)
      (iv : RegistryKey → EventPayload → Except String Unit)
      (event : PluginEvent),
      (∀ k : RegistryKey, rv k = Except.ok ()) →
      (∀ (k : RegistryKey) (pd : EventPayload), iv k pd = Except.ok ()) →
      call_event_handlers (runSubscriptions engineReady subs) rv iv event
        = (subs.filterMap (fun c =>
             if EventType.from_str c.2.1 = some event.event_type
               then some (c.1.getD "unknown", c.2.2) else none),
           Except.ok ()) := by
  intro subs rv iv event hrv hiv
  unfold call_event_handlers
  rw [handlersFor_runSubscriptions]
  have h0 : handlersFor engineReady event.event_type = [] := rfl
  rw [h0, List.nil_append]
  exact dispatchHandlers_all_ok rv iv _ _ (fun x _ => ⟨hrv x.2, hiv x.2 _⟩)

/-- Claim C5 witness: plugins `"alpha"` and `"beta"` both subscribe to
`buffer_open` (with an interleaved `mode_change` subscription); firing
`buffer_open` invokes alpha's then beta's handler, in that order. -/
theorem c5_dispatch_in_subscription_order_witness :
    call_event_handlers
        (runSubscriptions engineReady
          [(some "alpha", "buffer_open", 1),
           (some "alpha", "mode_change", 2),
           (some "beta", "buffer_open", 3)])
        (fun _ => Except.ok ()) (fun _ _ => Except.ok ())
        { event_type := EventType.OnBufferOpen, data := EventData.Buffer 7 none }
      = ([("alpha", 1), ("beta", 3)], Except.ok ()) := by
  have h := c5_dispatch_in_subscription_order
    [(some "alpha", "buffer_open", 1),
     (some "alpha", "mode_change", 2),
     (some "beta", "buffer_open", 3)]
    (fun _ => Except.ok ()) (fun _ _ => Except.ok ())
    { event_type := EventType.OnBufferOpen, data := EventData.Buffer 7 none }
    (fun _ => rfl) (fun _ _ => rfl)
  rw [h]
  rfl

/-- Claim C10: a subscription or UI request executed while the
interpreter-global `_current_plugin_name` is unset succeeds and is
attributed to plugin `"unknown"`, and a later failure of such a handler
is reported as `EventHandlerError` with plugin `"unknown"`. -/
theorem c10_unknown_attribution :
    (∀ (st : LuaEngineState) (s : String) (t : EventType) (k : RegistryKey),
      st.current_plugin_name = none →
      EventType.from_str s = some t →
      (helix_on st s k).2 = Except.ok ()
        ∧ handlersFor (helix_on st s k).1 t
            = handlersFor st t ++ [("unknown", k)])
    ∧ (∀ (st : LuaEngineState) (e : Editor) (m : String) (d : Option String)
        (k : RegistryKey),
        st.current_plugin_name = none →
        st.ui_handler_set = true →
        (ui_prompt (some e) st m d k).2.1
          = some ("unknown", st.next_ui_callback_id))
    ∧ (∀ (st : LuaEngineState) (rv : RegistryKey → Except String Unit)
        (iv : RegistryKey → EventPayload → Except String Unit)
        (event : PluginEvent) (k : RegistryKey) (e : String),
        handlersFor st event.event_type = [("unknown", k)] →
        rv k = Except.ok () →
        iv k (buildEventData event) = Except.error e →
        call_event_handlers st rv iv event
          = ([("unknown", k)],
             Except.error (PluginError.EventHandlerError "unknown"
               ("Handler execution failed: " ++ e)))) := by
  refine ⟨?_, ?_, ?_⟩
  · intro st s t k hcur hf
    constructor
    · simp [helix_on, hf]
    · rw [handlersFor_helix_on, hcur]
      simp [hf]
  · intro st e m d k hcur hui
    simp [ui_prompt, get_editor_mut, hui, hcur]
  · intro st rv iv event k e hh hrv hiv
    unfold call_event_handlers
    rw [hh]
    exact dispatchHandlers_first_fail rv iv (buildEventData event)
      [] "unknown" k [] e (by simp) hrv hiv

/-- Claim C10 witness: on a fresh engine (ambient plugin name unset), a
`ready` subscription and a prompt both attribute to `"unknown"`, and a
failing `"unknown"` handler is reported as such. -/
theorem c10_unknown_attribution_witness :
    ((helix_on engineReady "ready" 5).2 = Except.ok ()
      ∧ handlersFor (helix_on engineReady "ready" 5).1 EventType.OnReady
          = handlersFor engineReady EventType.OnReady ++ [("unknown", 5)])
    ∧ (ui_prompt (some editor0) engineReady "msg" none 9).2.1
        = some ("unknown", engineReady.next_ui_callback_id)
    ∧ call_event_handlers
        { engineReady with event_handlers := [(EventType.OnInit, [("unknown", 3)])] }
        (fun _ => Except.ok ()) (fun _ _ => Except.error "boom")
        { event_type := EventType.OnInit, data := EventData.None }
        = ([("unknown", 3)],
           Except.error (PluginError.EventHandlerError "unknown"
             ("Handler execution failed: " ++ "boom"))) :=
  ⟨c10_unknown_attribution.1 engineReady "ready" EventType.OnReady 5 rfl (by decide),
   c10_unknown_attribution.2.1 engineReady editor0 "msg" none 9 rfl rfl,
   c10_unknown_attribution.2.2
     { engineReady with event_handlers := [(EventType.OnInit, [("unknown", 3)])] }
     (fun _ => Except.ok ()) (fun _ _ => Except.error "boom")
     { event_type := EventType.OnInit, data := EventData.None }
     3 "boom" (by decide) rfl rfl⟩

/-! ## Claim C1 -/

theorem load_plugin_exec_cases (st : LuaEngineState) (plugin : Plugin)
    (code : String)
    (exec_chunk : String → LuaEngineState → LuaEngineState × Except String Unit) :
    load_plugin st plugin true (Except.ok code) exec_chunk
      = (match exec_chunk code
            { st with current_plugin_name := some plugin.metadata.name } with
         | (st2, Except.error e) => (st2, Except.error (PluginError.LuaError e))
         | (st2, Except.ok _) =>
           ({ st2 with
               current_plugin_name := none
               plugins := insertAssoc st2.plugins plugin.metadata.name plugin },
            Except.ok ())) := rfl

/-- Claim C1 counterexample: loading a plugin whose entry script raises —
the ambient `_current_plugin_name` global is NOT cleared on the failure
exit path: after the failed load it still holds `"alpha"`, contradicting
the claim that it is cleared on every exit path including script
failure. -/
theorem c1_counterexample :
    (load_plugin engineReady pluginA true (Except.ok "boom()")
        chunkFail).1.current_plugin_name = some "alpha"
    ∧ (load_plugin engineReady pluginA true (Except.ok "boom()") chunkFail).2
        = Except.error (PluginError.LuaError "runtime error in plugin script") :=
  ⟨rfl, rfl⟩

/-- Claim C1 (amended): `load_plugin` clears the ambient identity only on
the successful exit path (where the plugin also becomes resident); when
reading the entry script fails, or when the chunk raises, the early
return skips the clear — the engine is left exactly as the failing step
left it, with `_current_plugin_name` still bound to the plugin's name
unless the chunk itself changed it. -/
theorem c1_amended :
    ∀ (st : LuaEngineState) (plugin : Plugin) (code : String)
      (exec_chunk : String → LuaEngineState → LuaEngineState × Except String Unit),
      ((exec_chunk code
          { st with current_plugin_name := some plugin.metadata.name }).2
            = Except.ok () →
        (load_plugin st plugin true (Except.ok code)
            exec_chunk).1.current_plugin_name = none
        ∧ lookupAssoc (load_plugin st plugin true (Except.ok code)
            exec_chunk).1.plugins plugin.metadata.name = some plugin)
      ∧ (∀ e : String,
          (exec_chunk code
            { st with current_plugin_name := some plugin.metadata.name }).2
              = Except.error e →
          (load_plugin st plugin true (Except.ok code) exec_chunk).1
              = (exec_chunk code
                  { st with current_plugin_name := some plugin.metadata.name }).1
          ∧ (load_plugin st plugin true (Except.ok code) exec_chunk).2
              = Except.error (PluginError.LuaError e))
      ∧ (∀ e : String,
          (load_plugin st plugin true (Except.error e)
              exec_chunk).1.current_plugin_name = some plugin.metadata.name
          ∧ (load_plugin st plugin true (Except.error e) exec_chunk).2
              = Except.error (PluginError.IoError e)) := by
  intro st plugin code exec_chunk
  refine ⟨?_, ?_, ?_⟩
  · intro hok
    rw [load_plugin_exec_cases]
    cases hr : exec_chunk code
        { st with current_plugin_name := some plugin.metadata.name } with
    | mk st2 res =>
      rw [hr] at hok
      cases res with
      | ok u =>
        exact ⟨rfl, lookupAssoc_insert_self st2.plugins plugin.metadata.name plugin⟩
      | error e => exact Except.noConfusion hok
  · intro e herr
    rw [load_plugin_exec_cases]
    cases hr : exec_chunk code
        { st with current_plugin_name := some plugin.metadata.name } with
    | mk st2 res =>
      rw [hr] at herr
      cases res with
      | ok u => exact Except.noConfusion herr
      | error e' =>
        have he : e' = e := by
          injection herr
        subst he
        exact ⟨rfl, rfl⟩
  · intro e
    exact ⟨rfl, rfl⟩

/-- Claim C1 witness: a successful load clears the identity and makes the
plugin resident; a load whose script file cannot be read leaves the
identity bound to the plugin's name. -/
theorem c1_amended_witness :
    ((load_plugin engineReady pluginA true (Except.ok "x = 1")
        (fun _ s => (s, Except.ok ()))).1.current_plugin_name = none
      ∧ lookupAssoc (load_plugin engineReady pluginA true (Except.ok "x = 1")
          (fun _ s => (s, Except.ok ()))).1.plugins pluginA.metadata.name
          = some pluginA)
    ∧ (load_plugin engineReady pluginA true (Except.error "io fail")
        (fun _ s => (s, Except.ok ()))).1.current_plugin_name
        = some pluginA.metadata.name :=
  ⟨(c1_amended engineReady pluginA "x = 1" (fun _ s => (s, Except.ok ()))).1 rfl,
   ((c1_amended engineReady pluginA "x = 1"
      (fun _ s => (s, Except.ok ()))).2.2 "io fail").1⟩

/-! ## Claim C3 -/

/-- Claim C3 counterexample: a plugin directory that exists and is a
directory but whose `read_dir` fails makes `discover_plugins()?` — and
hence the whole of `PluginManager::initialize` — abort with the error: no
plugin is loaded and the `init` event is never fired, contradicting the
claim that discovery errors never abort the initialization sequence. -/
theorem c3_counterexample :
    managerInit configDefault engineReady [badDir]
        (fun _ => true) (fun _ => Except.ok "")
        (fun _ _ s => (s, Except.ok ()))
        (fun _ => Except.ok ()) (fun _ _ => Except.ok ())
      = (engineReady, false,
         Except.error (PluginError.IoError "permission denied")) :=
  rfl

theorem managerInit_discover_ok (config : PluginConfig) (st : LuaEngineState)
    (dirs : List DirListing) (entry_exists : String → Bool)
    (read_script : String → Except String String)
    (exec_chunk : String → String → LuaEngineState → LuaEngineState × Except String Unit)
    (rv : RegistryKey → Except String Unit)
    (iv : RegistryKey → EventPayload → Except String Unit)
    (ps : List Plugin)
    (h : discover_plugins dirs = Except.ok ps) :
    managerInit config st dirs entry_exists read_script exec_chunk rv iv
      = (ps.foldl (loadStep config entry_exists read_script exec_chunk) st,
         true,
         (call_event_handlers
           (ps.foldl (loadStep config entry_exists read_script exec_chunk) st)
           rv iv { event_type := EventType.OnInit, data := EventData.None }).2) := by
  unfold managerInit
  rw [h]

theorem load_plugin_preserves_key (st : LuaEngineState) (p : Plugin)
    (ee : Bool) (rs : Except String String)
    (exec : String → LuaEngineState → LuaEngineState × Except String Unit)
    (hpres : ∀ (c : String) (st' : LuaEngineState),
      ((exec c st').1).plugins = st'.plugins)
    (name : String)
    (h : (lookupAssoc st.plugins name).isSome = true) :
    (lookupAssoc ((load_plugin st p ee rs exec).1).plugins name).isSome = true := by
  cases ee with
  | false => exact h
  | true =>
    cases rs with
    | error e => exact h
    | ok code =>
      rw [load_plugin_exec_cases]
      cases hr : exec code
          { st with current_plugin_name := some p.metadata.name } with
      | mk st2 res =>
        have hpl : st2.plugins = st.plugins := by
          have hx := hpres code
            { st with current_plugin_name := some p.metadata.name }
          rw [hr] at hx
          exact hx
        cases res with
        | error e =>
          show (lookupAssoc st2.plugins name).isSome = true
          rw [hpl]
          exact h
        | ok u =>
          show (lookupAssoc (insertAssoc st2.plugins p.metadata.name p)
            name).isSome = true
          by_cases hn : name = p.metadata.name
          · subst hn
            rw [lookupAssoc_insert_self]
            rfl
          · rw [lookupAssoc_insert_ne st2.plugins p.metadata.name name p hn, hpl]
            exact h

theorem load_plugin_success_key (st : LuaEngineState) (p : Plugin)
    (code : String)
    (exec : String → LuaEngineState → LuaEngineState × Except String Unit)
    (hex : ∀ st' : LuaEngineState, (exec code st').2 = Except.ok ()) :
    (lookupAssoc ((load_plugin st p true (Except.ok code) exec).1).plugins
        p.metadata.name).isSome = true := by
  rw [load_plugin_exec_cases]
  cases hr : exec code
      { st with current_plugin_name := some p.metadata.name } with
  | mk st2 res =>
    have hres := hex { st with current_plugin_name := some p.metadata.name }
    rw [hr] at hres
    cases res with
    | error e => exact Except.noConfusion hres
    | ok u =>
      show (lookupAssoc (insertAssoc st2.plugins p.metadata.name p)
        p.metadata.name).isSome = true
      rw [lookupAssoc_insert_self]
      rfl

theorem foldl_load_keeps (config : PluginConfig)
    (ee : String → Bool) (rs : String → Except String String)
    (exec : String → String → LuaEngineState → LuaEngineState × Except String Unit)
    (hpres : ∀ (n c : String) (st' : LuaEngineState),
      ((exec n c st').1).plugins = st'.plugins) :
    ∀ (ps : List Plugin) (st : LuaEngineState) (name : String),
      (lookupAssoc st.plugins name).isSome = true →
      (lookupAssoc ((ps.foldl (loadStep config ee rs exec) st).plugins)
        name).isSome = true := by
  intro ps
  induction ps with
  | nil => intro st name h; exact h
  | cons q qs ih =>
    intro st name h
    rw [List.foldl_cons]
    apply ih
    unfold loadStep
    cases hq : is_plugin_enabled config q.metadata.name with
    | false => exact h
    | true =>
      exact load_plugin_preserves_key st q (ee q.metadata.name)
        (rs q.metadata.name) (exec q.metadata.name)
        (hpres q.metadata.name) name h

theorem foldl_load_contains (config : PluginConfig)
    (ee : String → Bool) (rs : String → Except String String)
    (exec : String → String → LuaEngineState → LuaEngineState × Except String Unit)
    (hpres : ∀ (n c : String) (st' : LuaEngineState),
      ((exec n c st').1).plugins = st'.plugins) :
    ∀ (ps : List Plugin) (st : LuaEngineState) (p : Plugin),
      p ∈ ps →
      is_plugin_enabled config p.metadata.name = true →
      ee p.metadata.name = true →
      (∃ code, rs p.metadata.name = Except.ok code
        ∧ ∀ st' : LuaEngineState,
            (exec p.metadata.name code st').2 = Except.ok ()) →
      (lookupAssoc ((ps.foldl (loadStep config ee rs exec) st).plugins)
        p.metadata.name).isSome = true := by
  intro ps
  induction ps with
  | nil =>
    intro st p hp
    exact absurd hp (List.not_mem_nil p)
  | cons q qs ih =>
    intro st p hp hen hee hcode
    rw [List.foldl_cons]
    rcases List.mem_cons.mp hp with hq | hmem
    · subst hq
      apply foldl_load_keeps config ee rs exec hpres
      obtain ⟨code, hc, hex⟩ := hcode
      unfold loadStep
      rw [hen, hee, hc]
      exact load_plugin_success_key st p code (exec p.metadata.name) hex
    · exact ih (loadStep config ee rs exec st q) p hmem hen hee hcode

/-- Claim C3 (amended): per-plugin discovery errors (metadata parse
failures, missing entry scripts) and per-plugin load-time errors are
caught and logged and never abort initialization — when discovery itself
succeeds, every enabled, loadable plugin ends up resident no matter which
other plugins fail, and the `init` event firing is always reached; but a
directory-read I/O error during discovery propagates out of `initialize`,
aborting before any plugin is loaded and before the `init` event. -/
theorem c3_load_failures_do_not_abort :
    ∀ (config : PluginConfig) (st : LuaEngineState) (dirs : List DirListing)
      (entry_exists : String → Bool)
      (read_script : String → Except String String)
      (exec_chunk : String → String → LuaEngineState → LuaEngineState × Except String Unit)
      (rv : RegistryKey → Except String Unit)
      (iv : RegistryKey → EventPayload → Except String Unit)
      (ps : List Plugin),
      discover_plugins dirs = Except.ok ps →
      (∀ (n c : String) (st' : LuaEngineState),
        ((exec_chunk n c st').1).plugins = st'.plugins) →
      ((managerInit config st dirs entry_exists read_script exec_chunk
          rv iv).2.1 = true
        ∧ ∀ p ∈ ps,
            is_plugin_enabled config p.metadata.name = true →
            entry_exists p.metadata.name = true →
            (∃ code, read_script p.metadata.name = Except.ok code
              ∧ ∀ st' : LuaEngineState,
                  (exec_chunk p.metadata.name code st').2 = Except.ok ()) →
            (lookupAssoc (managerInit config st dirs entry_exists read_script
                exec_chunk rv iv).1.plugins p.metadata.name).isSome = true) := by
  intro config st dirs ee rs exec rv iv ps hdisc hpres
  rw [managerInit_discover_ok config st dirs ee rs exec rv iv ps hdisc]
  constructor
  · rfl
  · intro p hp hen hee hcode
    exact foldl_load_contains config ee rs exec hpres ps st p hp hen hee hcode

/-- Claim C3 witness: one directory discovering plugins `"alpha"` and
`"beta"`; alpha's script raises at load time, yet beta is resident
afterwards and the init firing is reached. -/
theorem c3_load_failures_do_not_abort_witness :
    (managerInit configDefault engineReady [dirAB] (fun _ => true)
        (fun _ => Except.ok "") execAlphaFails
        (fun _ => Except.ok ()) (fun _ _ => Except.ok ())).2.1 = true
    ∧ (lookupAssoc (managerInit configDefault engineReady [dirAB]
        (fun _ => true) (fun _ => Except.ok "") execAlphaFails
        (fun _ => Except.ok ()) (fun _ _ => Except.ok ())).1.plugins
        pluginB.metadata.name).isSome = true :=
  ⟨(c3_load_failures_do_not_abort configDefault engineReady [dirAB]
      (fun _ => true) (fun _ => Except.ok "") execAlphaFails
      (fun _ => Except.ok ()) (fun _ _ => Except.ok ())
      [pluginA, pluginB] rfl (fun _ _ _ => rfl)).1,
   (c3_load_failures_do_not_abort configDefault engineReady [dirAB]
      (fun _ => true) (fun _ => Except.ok "") execAlphaFails
      (fun _ => Except.ok ()) (fun _ _ => Except.ok ())
      [pluginA, pluginB] rfl (fun _ _ _ => rfl)).2
     pluginB (by decide) rfl rfl ⟨"", rfl, fun _ => rfl⟩⟩

end HelixPlugin
